import Mathlib

/-!
A shallow embedding of the Strawberry language implementation
(src/error.rs, src/lexer.rs, src/parser.rs, src/libs/standard.rs,
src/libs/mod.rs) in Lean 4, used to settle the specification claims.

Modelling conventions, kept uniform through the file:
* Rust `f64` is modelled as `Rat`.  Every numeric literal appearing in the
  claims (0, 1, 2, 3, 5, 10, 20, 99) and every arithmetic operation on them
  is exact in `f64`, so the rational model agrees with the Rust semantics on
  all inputs the theorems below evaluate.
* Rust character indices: `StrawberryLexer.index` counts characters (one
  `next_character` call per char) while `self.source[start..end]` is a byte
  slice; the two agree on ASCII sources, and every source text used below is
  ASCII, so the model slices by character position.
* `char::is_whitespace` / `is_alphabetic` / `is_alphanumeric` are Unicode in
  Rust and ASCII in Lean's `Char.isWhitespace` / `isAlpha` / `isAlphanum`;
  they agree on ASCII sources.
* Fallible Rust code returns `Result`; the lexer mutates `self` even on the
  error path and some callers swallow errors and keep parsing, so the lexer's
  result type `LRes` carries the lexer state inside the error constructor.
* A Rust panic (`Result::unwrap` on an `Err`, `usize` subtraction overflow)
  is the `panic` outcome.  A Rust loop whose body provably never changes the
  state (the `high_skip_whitespace` macro when the current character exists
  and is not whitespace: its body is a no-op in that case) is the `diverge`
  outcome.  Recursion between `next_token` and the nested parsers is modelled
  with fuel; `nofuel` marks fuel exhaustion and is a model artifact only.
-/

namespace Strawberry

/-- `'` (avoids an apostrophe character literal). -/
def quoteChar : Char := Char.ofNat 39

/-- The backquote character. -/
def backquoteChar : Char := Char.ofNat 96

/-- `\x7b`, the opening brace character. -/
def openBrace : Char := Char.ofNat 123

/-- `\x7d`, the closing brace character. -/
def closeBrace : Char := Char.ofNat 125

/-- An apostrophe as a string, for building error-message text. -/
def apostr : String := String.singleton quoteChar

/-- Wraps a string in apostrophes, as several Rust error messages do. -/
def sq (s : String) : String := apostr ++ s ++ apostr

/-- lexer.rs `ExpressionKind`. -/
inductive ExpressionKind where
  | add
  | subtract
  | multiply
  | divide
deriving DecidableEq, Repr

/-- lexer.rs `ComparisonKind`. -/
inductive ComparisonKind where
  | equal
  | notEqual
  | greaterThan
  | lessThan
  | greaterEqual
  | lessEqual
deriving DecidableEq, Repr

/-- lexer.rs `TokenSpan`.  Rust's field `end` is a Lean keyword and is named
`stop` here. -/
structure TokenSpan where
  start : Nat
  stop : Nat
  text : String
deriving DecidableEq, Repr

mutual
/-- lexer.rs `Token`: a kind together with its span. -/
inductive Token where
  | mk : TokenKind → TokenSpan → Token

/-- lexer.rs `TokenKind`.  Rust's `Let` constructor is named `letBind`
(`let` is a Lean keyword); `Number(f64)` carries a `Rat` per the modelling
conventions above. -/
inductive TokenKind where
  | literalString : String → TokenKind
  | bracketScope : List Token → TokenKind
  | identifier : String → TokenKind
  | letBind : String → Option Token → TokenKind
  | call : String → List Token → TokenKind
  | number : Rat → TokenKind
  | boolean : Bool → TokenKind
  | comparison : ComparisonKind → Token → Token → TokenKind
  | attribution : TokenKind
  | expression : ExpressionKind → Token → Token → TokenKind
  | function : String → List String → Token → TokenKind
  | unknown : TokenKind
end

/-- The kind of a token. -/
def Token.kind : Token → TokenKind
  | .mk k _ => k

/-- The span of a token. -/
def Token.span : Token → TokenSpan
  | .mk _ sp => sp

/-- lexer.rs `StrawberryLexer` state: the token stack (`tokens`, most recent
first, so Rust `push` is `cons` and `pop` reads the head), the full source,
the not-yet-delivered remainder of `character_stream`, the current character
and the `isize` index. -/
structure LexState where
  tokens : List Token
  source : List Char
  rest : List Char
  curr : Option Char
  index : Int

/-- lexer.rs `next_character`. -/
def LexState.nextCharacter (s : LexState) : LexState :=
  { s with curr := s.rest.head?, rest := s.rest.tail, index := s.index + 1 }

/-- lexer.rs `peek_character`: `self.source.chars().nth(self.index as usize)`.
A negative `isize` cast to `usize` is astronomically large, so `nth` yields
`None`; hence the explicit sign test. -/
def LexState.peekCharacter (s : LexState) : Option Char :=
  if s.index < 0 then none else s.source.get? s.index.toNat

/-- The character-index slice `self.source[start..stop]` as a string
(sources in the theorems are ASCII, where byte and char slicing agree). -/
def sliceText (source : List Char) (start stop : Nat) : String :=
  String.mk ((source.drop start).take (stop - start))

/-- A Rust loop of the shape `while let Some(c) = self.current_character
{ if !p(c) break; consume; self.next_character(); }`: consumes the maximal
run of characters satisfying `p`, returning the consumed run and the state
after it.  Used by the string/symbol/operator scans and the
whitespace-skipping loops of lexer.rs. -/
def scanStream (p : Char → Bool) (s : LexState) : List Char × LexState :=
  match s.curr with
  | none => ([], s)
  | some c =>
      let view := c :: s.rest
      let taken := view.takeWhile p
      let remaining := view.dropWhile p
      (taken,
        { s with curr := remaining.head?, rest := remaining.tail,
                 index := s.index + taken.length })

/-- lexer.rs macro `high_skip_whitespace`: `while let Some(c) =
self.current_character { if c.is_whitespace() { self.next_character();
break; } }`.  When the current character exists and is not whitespace the
loop body does nothing, so the Rust loop never terminates; that case is
`none` (divergence).  Otherwise it skips at most one whitespace character. -/
def highSkipWhitespace (s : LexState) : Option LexState :=
  match s.curr with
  | none => some s
  | some c => if c.isWhitespace then some s.nextCharacter else none

/-- The lexer's result type: `ok` carries the produced value, `err` a
SyntaxError message (`StrawberryError::syntax_error` is the only error
constructor lexer.rs uses) together with the lexer state at the moment of
the error (Rust mutates `self` in place, and some callers keep lexing after
an error), `panic` a Rust panic, `diverge` a proven infinite loop and
`nofuel` fuel exhaustion (a model artifact). -/
inductive LRes (α : Type) where
  | ok : α → LRes α
  | err : String → LexState → LRes α
  | panic : LRes α
  | diverge : LRes α
  | nofuel : LRes α

/-- Whether a lexer outcome is a normal termination (a value or a
SyntaxError), as opposed to a panic, divergence or fuel exhaustion. -/
def LRes.settled : LRes α → Bool
  | .ok _ => true
  | .err _ _ => true
  | _ => false

/-- The SyntaxError message of a lexer outcome, when it is one. -/
def LRes.errMsg : LRes α → Option String
  | .err m _ => some m
  | _ => none

/-- lexer.rs `parse_multiline_string`. -/
def parseMultilineString (s : LexState) : LRes (Token × LexState) :=
  let start := s.index.toNat
  let s1 := s.nextCharacter
  let (chars, s2) := scanStream (fun c => c ≠ backquoteChar) s1
  if s2.curr ≠ some backquoteChar then
    .err ("Missing \x22" ++ String.singleton backquoteChar ++ "\x22 at the end of the string") s2
  else
    let s3 := s2.nextCharacter
    let stop := s3.index.toNat
    .ok (⟨.literalString (String.mk chars), ⟨start, stop, sliceText s3.source start stop⟩⟩, s3)

/-- lexer.rs `parse_literal_string`. -/
def parseLiteralString (s : LexState) : LRes (Token × LexState) :=
  let start := s.index.toNat
  let s1 := s.nextCharacter
  let (chars, s2) := scanStream (fun c => c ≠ quoteChar ∧ c ≠ '\n') s1
  if s2.curr ≠ some quoteChar then
    .err ("Missing \x22" ++ apostr ++ "\x22 at the end of the string") s2
  else
    let s3 := s2.nextCharacter
    let stop := s3.index.toNat
    .ok (⟨.literalString (String.mk chars), ⟨start, stop, sliceText s3.source start stop⟩⟩, s3)

/-- The digit/decimal-point scan of lexer.rs `parse_number`: consumes digits
and at most one decimal point (a second `.` stops the scan). -/
def takeNumber : List Char → Bool → List Char
  | [], _ => []
  | c :: cs, isFloat =>
      if c.isDigit then c :: takeNumber cs isFloat
      else if c = '.' then
        if isFloat then [] else c :: takeNumber cs true
      else []

/-- The value of a digit run. -/
def digitsToNat (cs : List Char) : Nat :=
  cs.foldl (fun a c => a * 10 + (c.toNat - 48)) 0

/-- Rust `number_str.parse::<f64>()`, restricted to the shapes `takeNumber`
can produce (a digit run with at most one interior or trailing point), with
the result as an exact rational. -/
def parseDecimal (cs : List Char) : Option Rat :=
  let intPart := cs.takeWhile Char.isDigit
  let restPart := cs.dropWhile Char.isDigit
  if intPart.isEmpty then none
  else
    match restPart with
    | [] => some (digitsToNat intPart : Rat)
    | c :: fracs =>
        if c = '.' ∧ fracs.all Char.isDigit then
          some ((digitsToNat intPart : Rat) +
            (digitsToNat fracs : Rat) / ((10 : Rat) ^ fracs.length))
        else none

/-- lexer.rs `parse_number`. -/
def parseNumber (s : LexState) : LRes (Token × LexState) :=
  let start := s.index.toNat
  let view := match s.curr with
    | some c => c :: s.rest
    | none => []
  let consumed := takeNumber view false
  let remaining := view.drop consumed.length
  let s1 := { s with curr := remaining.head?, rest := remaining.tail,
                     index := s.index + consumed.length }
  match parseDecimal consumed with
  | none => .err ("\x22" ++ String.mk consumed ++ "\x22 is not a valid number") s1
  | some v =>
      let stop := s1.index.toNat
      .ok (⟨.number v, ⟨start, stop, sliceText s1.source start stop⟩⟩, s1)

/-- lexer.rs `StrawberryLexer::operators`. -/
def operators : List Char := ['=', '!', '<', '>', '+', '-', '*', '/']

/-- lexer.rs `parse_symbol`'s extraction of parameter names from the
call-shaped signature of a `function` declaration: an `Identifier` argument
yields its name, every other argument kind yields the empty string. -/
def extractArgNames (ts : List Token) : List String :=
  ts.map fun t =>
    match t.kind with
    | .identifier n => n
    | _ => ""

/-- Builds the token returned at the end of lexer.rs `parse_symbol` /
`parse_operator`: span from `start` to the current index. -/
def finishTok (kind : TokenKind) (start : Nat) (s : LexState) : LRes (Token × LexState) :=
  let stop := s.index.toNat
  .ok (⟨kind, ⟨start, stop, sliceText s.source start stop⟩⟩, s)

/-- lexer.rs `parse_operator`'s "does not exists" message. -/
def unknownOpMsg (op : String) : String :=
  "The operator \x22" ++ op ++ "\x22 does not exists."

mutual

/-- lexer.rs `next_token`: dispatch on the current character. -/
def nextToken (fuel : Nat) (s : LexState) : LRes (Token × LexState) :=
  match fuel with
  | 0 => .nofuel
  | f + 1 =>
      match s.curr with
      | none => .err "Unexpected EOF." s
      | some c =>
          if c = quoteChar then parseLiteralString s
          else if c = backquoteChar then parseMultilineString s
          else if c = openBrace then parseBracketScope f s
          else if operators.contains c then parseOperator f s
          else if c.isDigit then parseNumber s
          else if c.isAlpha then parseSymbol f s
          else .err ("Unexpected character: \x22" ++ String.singleton c ++ "\x22") s

/-- lexer.rs `parse_bracket_scope`'s scan loop: stop at `}` or end-of-input,
skip whitespace, otherwise request a token; a successful token is pushed on
the shared stack and counted in `idx`, a failed one breaks the loop with the
error swallowed (`if let Ok(..) .. else break`). -/
def bracketLoop (fuel : Nat) (idx : Nat) (s : LexState) : LRes (Nat × LexState) :=
  match fuel with
  | 0 => .nofuel
  | f + 1 =>
      match s.curr with
      | none => .ok (idx, s)
      | some c =>
          if c = closeBrace then .ok (idx, s)
          else if c.isWhitespace then bracketLoop f idx s.nextCharacter
          else
            match nextToken f s with
            | .ok (t, s2) => bracketLoop f (idx + 1) { s2 with tokens := t :: s2.tokens }
            | .err _ s2 => .ok (idx, s2)
            | .panic => .panic
            | .diverge => .diverge
            | .nofuel => .nofuel

/-- lexer.rs `parse_bracket_scope`: scan child tokens on the shared stack,
require the closing `}`, then pop `idx - 1` tokens off the shared stack
(however many there are) and reverse them into the scope. -/
def parseBracketScope (fuel : Nat) (s : LexState) : LRes (Token × LexState) :=
  match fuel with
  | 0 => .nofuel
  | f + 1 =>
      let start := s.index.toNat
      let s1 := s.nextCharacter
      match bracketLoop f 1 s1 with
      | .ok (idx, s2) =>
          if s2.curr ≠ some closeBrace then .err "Scope was not closed" s2
          else
            let s3 := s2.nextCharacter
            let scope := (s3.tokens.take (idx - 1)).reverse
            let s4 := { s3 with tokens := s3.tokens.drop (idx - 1) }
            let stop := s4.index.toNat
            .ok (⟨.bracketScope scope, ⟨start, stop, sliceText s4.source start stop⟩⟩, s4)
      | .err m s2 => .err m s2
      | .panic => .panic
      | .diverge => .diverge
      | .nofuel => .nofuel

/-- lexer.rs `parse_symbol`'s value loop inside the `let` branch: skip
whitespace, stop at `;` or end-of-input, otherwise `self.next_token()?` (the
error propagates) and push the token on the shared stack. -/
def letValueLoop (fuel : Nat) (s : LexState) : LRes LexState :=
  match fuel with
  | 0 => .nofuel
  | f + 1 =>
      let s1 := (scanStream Char.isWhitespace s).2
      match s1.curr with
      | none => .ok s1
      | some c =>
          if c = ';' then .ok s1
          else
            match nextToken f s1 with
            | .ok (t, s2) => letValueLoop f { s2 with tokens := t :: s2.tokens }
            | .err m s2 => .err m s2
            | .panic => .panic
            | .diverge => .diverge
            | .nofuel => .nofuel

/-- lexer.rs `parse_symbol`'s call-argument loop: stop at `)` or
end-of-input; a comma or whitespace character is skipped; otherwise request
a token, push it on the shared stack and count it in `idx` unless it is an
`Expression` (whose fold already consumed one stack entry); a failed token
request breaks the loop with the error swallowed. -/
def callArgsLoop (fuel : Nat) (idx : Nat) (s : LexState) : LRes (Nat × LexState) :=
  match fuel with
  | 0 => .nofuel
  | f + 1 =>
      match s.curr with
      | none => .ok (idx, s)
      | some c =>
          if c = ')' then .ok (idx, s)
          else if c = ',' ∨ c.isWhitespace then callArgsLoop f idx s.nextCharacter
          else
            match nextToken f s with
            | .ok (t, s2) =>
                let idx' := match t.kind with
                  | .expression _ _ _ => idx
                  | _ => idx + 1
                callArgsLoop f idx' { s2 with tokens := t :: s2.tokens }
            | .err _ s2 => .ok (idx, s2)
            | .panic => .panic
            | .diverge => .diverge
            | .nofuel => .nofuel

/-- lexer.rs `parse_symbol`. -/
def parseSymbol (fuel : Nat) (s : LexState) : LRes (Token × LexState) :=
  match fuel with
  | 0 => .nofuel
  | f + 1 =>
      let start := s.index.toNat
      let (nameChars, s1) := scanStream (fun c => c.isAlphanum || c = '_') s
      let name := String.mk nameChars
      if name = "let" then
        match highSkipWhitespace s1 with
        | none => .diverge
        | some s2 =>
            match nextToken f s2 with
            | .err _ s3 => .err "Set a variable name at the \x22let\x22 statement" s3
            | .panic => .panic
            | .diverge => .diverge
            | .nofuel => .nofuel
            | .ok (vnTok, s3) =>
                match vnTok.kind with
                | .identifier vn =>
                    match highSkipWhitespace s3 with
                    | none => .diverge
                    | some s4 =>
                        match nextToken f s4 with
                        | .err _ s5 => finishTok (.letBind vn none) start s5
                        | .panic => .panic
                        | .diverge => .diverge
                        | .nofuel => .nofuel
                        | .ok (opTok, s5) =>
                            match opTok.kind with
                            | .attribution =>
                              match letValueLoop f s5 with
                              | .ok s6 =>
                                  if s6.curr ≠ some ';' then
                                    .err "Let statement was expecting a semicolon" s6
                                  else
                                    let s7 := s6.nextCharacter
                                    match s7.tokens.head? with
                                    | some v =>
                                        finishTok (.letBind vn (some v)) start
                                          { s7 with tokens := s7.tokens.tail }
                                    | none => .err "Let statement was expecting a value" s7
                              | .err m s6 => .err m s6
                              | .panic => .panic
                              | .diverge => .diverge
                              | .nofuel => .nofuel
                            | _ => finishTok (.letBind vn none) start s5
                | _ => .err "Let statement was expecting an identifier." s3
      else if name = "function" then
        match highSkipWhitespace s1 with
        | none => .diverge
        | some s2 =>
            match nextToken f s2 with
            | .err _ s3 => .err ("Expected a function name after " ++ sq "function") s3
            | .panic => .panic
            | .diverge => .diverge
            | .nofuel => .nofuel
            | .ok (fnTok, s3) =>
                match fnTok.kind with
                | .call nm callArgs =>
                    match highSkipWhitespace s3 with
                    | none => .diverge
                    | some s4 =>
                        if s4.curr ≠ some openBrace then
                          .err ("Expected " ++ sq "\x7b" ++ " to start the function body.") s4
                        else
                          match parseBracketScope f s4 with
                          | .ok (bodyTok, s5) =>
                              finishTok (.function nm (extractArgNames callArgs) bodyTok) start s5
                          | .err m s5 => .err m s5
                          | .panic => .panic
                          | .diverge => .diverge
                          | .nofuel => .nofuel
                | _ => .err "Malformed function" s3
      else if name = "true" ∨ name = "false" then
        finishTok (.boolean (name = "true")) start s1
      else
        match s1.peekCharacter with
        | some c =>
            if c = '(' then
              let s2 := s1.nextCharacter
              match callArgsLoop f 1 s2 with
              | .ok (idx, s3) =>
                  if s3.curr ≠ some ')' then .err "Function call was not closed" s3
                  else
                    let s4 := s3.nextCharacter
                    let args := (s4.tokens.take (idx - 1)).reverse
                    finishTok (.call name args) start { s4 with tokens := s4.tokens.drop (idx - 1) }
              | .err m s3 => .err m s3
              | .panic => .panic
              | .diverge => .diverge
              | .nofuel => .nofuel
            else finishTok (.identifier name) start s1
        | none => finishTok (.identifier name) start s1

/-- The shared shape of lexer.rs `parse_operator`'s eight binary branches:
pop the most recent token, skip whitespace, request the next token, and when
both operands exist fold them with `mk`, retracting the span start by the
left operand's width plus one (a `usize` subtraction: its overflow is a
panic).  When the left operand is missing or the right request failed the
token kind stays `Unknown`, which the end of `parse_operator` turns into the
"does not exists" error at the state the attempts left behind. -/
def binCase (fuel : Nat) (op : String) (start : Nat) (s : LexState)
    (mk : Token → Token → TokenKind) : LRes (Token × LexState) :=
  match fuel with
  | 0 => .nofuel
  | f + 1 =>
      let lastTok := s.tokens.head?
      let s1 := { s with tokens := s.tokens.tail }
      let s2 := (scanStream Char.isWhitespace s1).2
      match nextToken f s2 with
      | .ok (r, s3) =>
          match lastTok with
          | some l =>
              let width := (l.span.stop - l.span.start) + 1
              if start < width then .panic
              else finishTok (mk l r) (start - width) s3
          | none => .err (unknownOpMsg op) s3
      | .err _ s3 => .err (unknownOpMsg op) s3
      | .panic => .panic
      | .diverge => .diverge
      | .nofuel => .nofuel

/-- lexer.rs `parse_operator`'s `-` branch: the binary fold when a left
operand can be popped and the right request succeeds; otherwise the unary
path, which calls `next_token.unwrap()` — a panic when the request failed —
and requires a `Number`, negated in place. -/
def minusCase (fuel : Nat) (start : Nat) (s : LexState) : LRes (Token × LexState) :=
  match fuel with
  | 0 => .nofuel
  | f + 1 =>
      let lastTok := s.tokens.head?
      let s1 := { s with tokens := s.tokens.tail }
      let s2 := (scanStream Char.isWhitespace s1).2
      match nextToken f s2 with
      | .ok (r, s3) =>
          match lastTok with
          | some l =>
              let width := (l.span.stop - l.span.start) + 1
              if start < width then .panic
              else finishTok (.expression .subtract l r) (start - width) s3
          | none =>
              match r.kind with
              | .number n => finishTok (.number (n * (-1))) start s3
              | _ => .err "The unary operator can be used only on numbers" s3
      | .err _ _ => .panic
      | .panic => .panic
      | .diverge => .diverge
      | .nofuel => .nofuel

/-- lexer.rs `parse_operator`: scan the maximal operator-character run and
dispatch on it. -/
def parseOperator (fuel : Nat) (s : LexState) : LRes (Token × LexState) :=
  match fuel with
  | 0 => .nofuel
  | f + 1 =>
      let start := s.index.toNat
      let (opChars, s1) := scanStream (fun c => operators.contains c) s
      let op := String.mk opChars
      if op = "=" then finishTok .attribution start s1
      else if op = "+" then binCase f op start s1 (.expression .add)
      else if op = "*" then binCase f op start s1 (.expression .multiply)
      else if op = "/" then binCase f op start s1 (.expression .divide)
      else if op = "-" then minusCase f start s1
      else if op = "==" then binCase f op start s1 (.comparison .equal)
      else if op = "!=" then binCase f op start s1 (.comparison .notEqual)
      else if op = ">=" then binCase f op start s1 (.comparison .greaterEqual)
      else if op = "<=" then binCase f op start s1 (.comparison .lessEqual)
      else if op = ">" then binCase f op start s1 (.comparison .greaterThan)
      else if op = "<" then binCase f op start s1 (.comparison .lessThan)
      else .err (unknownOpMsg op) s1

end

/-- lexer.rs `run_stream`'s scan loop: skip whitespace, otherwise
`self.next_token()?` (the error propagates) and push the token. -/
def streamLoop (fuel : Nat) (s : LexState) : LRes LexState :=
  match fuel with
  | 0 => .nofuel
  | f + 1 =>
      match s.curr with
      | none => .ok s
      | some c =>
          if c.isWhitespace then streamLoop f s.nextCharacter
          else
            match nextToken f s with
            | .ok (t, s2) => streamLoop f { s2 with tokens := t :: s2.tokens }
            | .err m s2 => .err m s2
            | .panic => .panic
            | .diverge => .diverge
            | .nofuel => .nofuel

/-- lexer.rs `from_string`: empty token stack, the character stream at the
start, `current_character` primed with `char::default()` and `index = -1`. -/
def initState (source : String) : LexState :=
  { tokens := [], source := source.toList, rest := source.toList,
    curr := some (Char.ofNat 0), index := -1 }

/-- lexer.rs `run_stream`: prime the stream with `next_character`, run the
scan loop and return the accumulated tokens in production order. -/
def runStream (fuel : Nat) (source : String) : LRes (List Token) :=
  match streamLoop fuel (initState source).nextCharacter with
  | .ok s => .ok s.tokens.reverse
  | .err m s => .err m s
  | .panic => .panic
  | .diverge => .diverge
  | .nofuel => .nofuel

/-- libs/standard.rs native operations registered by libs/mod.rs
`load_standard` (`strawberry` and `if`); the function-pointer payload of a
`NativeFunction` value is identified by this tag and interpreted by
`applyNative` below. -/
inductive NativeImpl where
  | strawberryPrint
  | ifComparison
deriving DecidableEq, Repr

/-- parser.rs `StrawberryValue`.  `Number(f64)` carries a `Rat`; the
`NativeFunction` payload is a `NativeImpl` tag. -/
inductive StrawberryValue where
  | str : String → StrawberryValue
  | num : Rat → StrawberryValue
  | boolean : Bool → StrawberryValue
  | nativeFunction : String → NativeImpl → StrawberryValue
  | function : String → List String → List Token → StrawberryValue
  | block : List Token → StrawberryValue
  | empty : StrawberryValue

/-- parser.rs `StrawberryParser::variables`, a `HashMap<String,
StrawberryValue>` modelled as an association list with replace-on-insert. -/
def Env : Type := List (String × StrawberryValue)

/-- `HashMap::get`. -/
def envGet (env : Env) (k : String) : Option StrawberryValue :=
  match env with
  | [] => none
  | (k', v) :: rest => if k' = k then some v else envGet rest k

/-- `HashMap::insert`: replaces the binding when the key is present,
appends it otherwise. -/
def envInsert (env : Env) (k : String) (v : StrawberryValue) : Env :=
  match env with
  | [] => [(k, v)]
  | (k', v') :: rest => if k' = k then (k, v) :: rest else (k', v') :: envInsert rest k v

/-- parser.rs `visit_call`'s parameter binding: `for (param, value) in
params.iter().zip(args_values)` inserting each pair. -/
def envInsertAll (env : Env) (params : List String) (vals : List StrawberryValue) : Env :=
  (params.zip vals).foldl (fun e pv => envInsert e pv.1 pv.2) env

/-- The evaluator's result type: a value, a SemanticError message
(`StrawberryError::semantic_error` is the only error constructor parser.rs
and libs/standard.rs use), a Rust panic, or fuel exhaustion (a model
artifact; evaluation recursion through `Function` values is unbounded). -/
inductive ERes (α : Type) where
  | ok : α → ERes α
  | err : String → ERes α
  | panic : ERes α
  | nofuel : ERes α

/-- parser.rs `evaluate_numeric_expression`. -/
def evaluateNumericExpression (op : ExpressionKind) (lhs rhs : Rat) : ERes StrawberryValue :=
  match op with
  | .add => .ok (.num (lhs + rhs))
  | .subtract => .ok (.num (lhs - rhs))
  | .multiply => .ok (.num (lhs * rhs))
  | .divide =>
      if rhs = 0 then .err "Division by zero"
      else .ok (.num (lhs / rhs))

/-- parser.rs `evaluate_string_expression`. -/
def evaluateStringExpression (op : ExpressionKind) (lhs rhs : String) : ERes StrawberryValue :=
  match op with
  | .add => .ok (.str (lhs ++ rhs))
  | _ => .err "Invalid string operation; only concatenation is supported"

/-- parser.rs `evaluate_expression`. -/
def evaluateExpression (op : ExpressionKind) (left right : StrawberryValue) :
    ERes StrawberryValue :=
  match left, right with
  | .num lhs, .num rhs => evaluateNumericExpression op lhs rhs
  | .str lhs, .str rhs => evaluateStringExpression op lhs rhs
  | _, _ => .err "Cannot evaluate expression with mixed types"

/-- parser.rs `evaluate_comparison`. -/
def evaluateComparison (op : ComparisonKind) (left right : StrawberryValue) :
    ERes StrawberryValue :=
  match op, left, right with
  | .equal, .num lhs, .num rhs => .ok (.boolean (lhs = rhs))
  | .notEqual, .num lhs, .num rhs => .ok (.boolean (lhs ≠ rhs))
  | .greaterThan, .num lhs, .num rhs => .ok (.boolean (lhs > rhs))
  | .lessThan, .num lhs, .num rhs => .ok (.boolean (lhs < rhs))
  | .greaterEqual, .num lhs, .num rhs => .ok (.boolean (lhs ≥ rhs))
  | .lessEqual, .num lhs, .num rhs => .ok (.boolean (lhs ≤ rhs))
  | .equal, .str lhs, .str rhs => .ok (.boolean (lhs = rhs))
  | .notEqual, .str lhs, .str rhs => .ok (.boolean (lhs ≠ rhs))
  | .equal, .boolean lhs, .boolean rhs => .ok (.boolean (lhs = rhs))
  | .notEqual, .boolean lhs, .boolean rhs => .ok (.boolean (lhs ≠ rhs))
  | _, _, _ => .err "Invalid comparison or unsupported types"

/-- parser.rs `visit_identifier` (takes `&self`: the environment is read
only). -/
def visitIdentifier (env : Env) (t : Token) : ERes StrawberryValue :=
  match t.kind with
  | .identifier name =>
      match envGet env name with
      | some v => .ok v
      | none => .err ("Undefined variable: " ++ name)
  | _ => .err "Expected an Identifier token"

/-- parser.rs `visit_function`: store the function value under its name
(when its scope token is a `BracketScope`; otherwise the store is skipped)
and yield `Empty`. -/
def visitFunction (env : Env) (t : Token) : ERes (StrawberryValue × Env) :=
  match t.kind with
  | .function name args scope =>
      match scope.kind with
      | .bracketScope toks => .ok (.empty, envInsert env name (.function name args toks))
      | _ => .ok (.empty, env)
  | _ => .err "Expected a Function token"

mutual

/-- parser.rs `parse_token`: dispatch on the token kind, threading the
(mutable in Rust) environment. -/
def parseToken (fuel : Nat) (env : Env) (t : Token) : ERes (StrawberryValue × Env) :=
  match fuel with
  | 0 => .nofuel
  | f + 1 =>
      match t.kind with
      | .boolean b => .ok (.boolean b, env)
      | .bracketScope v => .ok (.block v, env)
      | .literalString _ => visitExpression f env t
      | .number _ => visitExpression f env t
      | .expression _ _ _ => visitExpression f env t
      | .letBind _ _ => visitLet f env t
      | .identifier _ =>
          match visitIdentifier env t with
          | .ok v => .ok (v, env)
          | .err m => .err m
          | .panic => .panic
          | .nofuel => .nofuel
      | .function _ _ _ => visitFunction env t
      | .call _ _ => visitCall f env t
      | .comparison op l r =>
          match parseToken f env l with
          | .ok (lv, env1) =>
              match parseToken f env1 r with
              | .ok (rv, env2) =>
                  match evaluateComparison op lv rv with
                  | .ok v => .ok (v, env2)
                  | .err m => .err m
                  | .panic => .panic
                  | .nofuel => .nofuel
              | .err m => .err m
              | .panic => .panic
              | .nofuel => .nofuel
          | .err m => .err m
          | .panic => .panic
          | .nofuel => .nofuel
      | .attribution => .err "Unknown token type"
      | .unknown => .err "Unknown token type"
termination_by 4 * fuel

/-- parser.rs `visit_expression`. -/
def visitExpression (fuel : Nat) (env : Env) (t : Token) : ERes (StrawberryValue × Env) :=
  match fuel with
  | 0 => .nofuel
  | f + 1 =>
      match t.kind with
      | .number n => .ok (.num n, env)
      | .literalString s => .ok (.str s, env)
      | .expression op l r =>
          match parseToken f env l with
          | .ok (lv, env1) =>
              match parseToken f env1 r with
              | .ok (rv, env2) =>
                  match evaluateExpression op lv rv with
                  | .ok v => .ok (v, env2)
                  | .err m => .err m
                  | .panic => .panic
                  | .nofuel => .nofuel
              | .err m => .err m
              | .panic => .panic
              | .nofuel => .nofuel
          | .err m => .err m
          | .panic => .panic
          | .nofuel => .nofuel
      | _ => .err "Invalid expression token"
termination_by 4 * fuel

/-- parser.rs `visit_let`: evaluate the initializer (or `Empty` when
absent), store it under the binding's name and yield it. -/
def visitLet (fuel : Nat) (env : Env) (t : Token) : ERes (StrawberryValue × Env) :=
  match fuel with
  | 0 => .nofuel
  | f + 1 =>
      match t.kind with
      | .letBind name value =>
          match value with
          | some vt =>
              match parseToken f env vt with
              | .ok (v, env1) => .ok (v, envInsert env1 name v)
              | .err m => .err m
              | .panic => .panic
              | .nofuel => .nofuel
          | none => .ok (.empty, envInsert env name .empty)
      | _ => .err "Expected a Let token"
termination_by 4 * fuel

/-- parser.rs `visit_call`: resolve the callee by identifier lookup, then
evaluate the arguments left to right (mutating the environment), and
dispatch: a native operation receives the argument values and the current
environment; a user `Function` checks the argument count, evaluates its body
in a fresh copy of the environment extended with the parameter bindings, and
returns the body's value — the caller keeps the environment as it stood
after argument evaluation.  (No fuel pattern match of its own: its measure
sits between `parseToken`'s and those of the functions it calls.) -/
def visitCall (fuel : Nat) (env : Env) (t : Token) : ERes (StrawberryValue × Env) :=
  match t.kind with
  | .call name args =>
      match visitIdentifier env ⟨.identifier name, t.span⟩ with
      | .ok fnVal =>
          match evalArgs fuel env args with
          | .ok (vals, env1) =>
              match fnVal with
              | .nativeFunction _ impl => applyNative fuel impl vals env1
              | .function _ params body =>
                  if params.length = vals.length then
                    match runTokenStream fuel body (envInsertAll env1 params vals) with
                    | .ok (r, _) => .ok (r, env1)
                    | .err m => .err m
                    | .panic => .panic
                    | .nofuel => .nofuel
                  else
                    .err ("Function " ++ name ++ " expected " ++ toString params.length ++
                      " arguments, but got " ++ toString vals.length)
              | _ => .err (name ++ " is not callable")
          | .err m => .err m
          | .panic => .panic
          | .nofuel => .nofuel
      | .err m => .err m
      | .panic => .panic
      | .nofuel => .nofuel
  | _ => .err "Expected a Call token"
termination_by 4 * fuel + 3

/-- parser.rs `visit_call`'s argument evaluation: `args.iter().map(|arg|
self.parse_token(arg)).collect::<Result<Vec<_>, _>>()`, left to right with
the first failure aborting. -/
def evalArgs (fuel : Nat) (env : Env) (args : List Token) :
    ERes (List StrawberryValue × Env) :=
  match fuel with
  | 0 => .nofuel
  | f + 1 =>
      match args with
      | [] => .ok ([], env)
      | a :: rest =>
          match parseToken f env a with
          | .ok (v, env1) =>
              match evalArgs f env1 rest with
              | .ok (vs, env2) => .ok (v :: vs, env2)
              | .err m => .err m
              | .panic => .panic
              | .nofuel => .nofuel
          | .err m => .err m
          | .panic => .panic
          | .nofuel => .nofuel
termination_by 4 * fuel

/-- The native operations of libs/standard.rs as dispatched through the
`NativeFunction` payload: `strawberry` prints (output is not modelled) and
returns `Empty`; `if_comparison` removes the first argument (`Vec::remove`
panics on an empty vector), requires it to be a Boolean, and runs the first
or second remaining argument as a code block when present. -/
def applyNative (fuel : Nat) (impl : NativeImpl) (args : List StrawberryValue)
    (env : Env) : ERes (StrawberryValue × Env) :=
  match impl with
  | .strawberryPrint => .ok (.empty, env)
  | .ifComparison =>
      match args with
      | [] => .panic
      | cond :: rest =>
          match cond with
          | .boolean b =>
              if b then
                match rest.head? with
                | some ifBlock => executeCodeBlock fuel [ifBlock] env
                | none => .ok (.empty, env)
              else
                match rest.get? 1 with
                | some elseBlock => executeCodeBlock fuel [elseBlock] env
                | none => .ok (.empty, env)
          | _ => .err ("First argument of " ++ sq "if" ++ " must be a boolean")
termination_by 4 * fuel + 2

/-- libs/standard.rs `execute_code_block`: `args.get(0).unwrap()` (a panic
when absent); a `Block` value runs as a fresh token stream over a clone of
the caller's environment, anything else yields `Empty`; the caller's
environment is returned unchanged. -/
def executeCodeBlock (fuel : Nat) (args : List StrawberryValue) (env : Env) :
    ERes (StrawberryValue × Env) :=
  match fuel with
  | 0 => .nofuel
  | f + 1 =>
      match args.head? with
      | none => .panic
      | some a =>
          match a with
          | .block code =>
              match runTokenStream f code env with
              | .ok (r, _) => .ok (r, env)
              | .err m => .err m
              | .panic => .panic
              | .nofuel => .nofuel
          | _ => .ok (.empty, env)
termination_by 4 * fuel

/-- parser.rs `run_token_stream`'s token loop, starting from the last
result so far (`Empty` initially). -/
def runLoop (fuel : Nat) (last : StrawberryValue) (toks : List Token) (env : Env) :
    ERes (StrawberryValue × Env) :=
  match fuel with
  | 0 => .nofuel
  | f + 1 =>
      match toks with
      | [] => .ok (last, env)
      | t :: rest =>
          match parseToken f env t with
          | .ok (v, env1) => runLoop f v rest env1
          | .err m => .err m
          | .panic => .panic
          | .nofuel => .nofuel
termination_by 4 * fuel

/-- parser.rs `run_token_stream`: evaluate the token sequence in order and
return the last value (`Empty` for an empty sequence) with the final
environment. -/
def runTokenStream (fuel : Nat) (toks : List Token) (env : Env) :
    ERes (StrawberryValue × Env) :=
  match fuel with
  | 0 => .nofuel
  | f + 1 => runLoop f .empty toks env
termination_by 4 * fuel + 1

end

/-! ### Values and inputs the claims are stated about -/

/-- A placeholder span for hand-built tokens (the evaluator never reads
spans). -/
def sp0 : TokenSpan := ⟨0, 0, ""⟩

/-- Whether a runtime value is a `Number`. -/
def StrawberryValue.isNum : StrawberryValue → Bool
  | .num _ => true
  | _ => false

/-- Whether a runtime value is a `String`. -/
def StrawberryValue.isStr : StrawberryValue → Bool
  | .str _ => true
  | _ => false

/-- The comparison table as the spec words it ("equality/inequality are
defined for Number, String, and Boolean operand pairs; ordering comparisons
are defined only for Number pairs; any other combination fails"), organized
by operand shapes; to be compared with `evaluateComparison`, which is
translated from parser.rs. -/
def specComparisonTable (op : ComparisonKind) (left right : StrawberryValue) :
    ERes StrawberryValue :=
  match left, right with
  | .num a, .num b =>
      .ok (.boolean (match op with
        | .equal => a = b
        | .notEqual => a ≠ b
        | .greaterThan => a > b
        | .lessThan => a < b
        | .greaterEqual => a ≥ b
        | .lessEqual => a ≤ b))
  | .str a, .str b =>
      match op with
      | .equal => .ok (.boolean (a = b))
      | .notEqual => .ok (.boolean (a ≠ b))
      | _ => .err "Invalid comparison or unsupported types"
  | .boolean a, .boolean b =>
      match op with
      | .equal => .ok (.boolean (a = b))
      | .notEqual => .ok (.boolean (a ≠ b))
      | _ => .err "Invalid comparison or unsupported types"
  | _, _ => .err "Invalid comparison or unsupported types"

/-- C1's source text. -/
def srcC1 : String := "1 + 2 * 3"

/-- The token sequence `1 + 2 * 3` lexes to: one `Expression(Multiply)`
whose left child is the already-folded `Expression(Add, 1, 2)` and whose
right child is the number 3. -/
def toksC1 : List Token :=
  [⟨.expression .multiply
      ⟨.expression .add ⟨.number 1, ⟨0, 1, "1"⟩⟩ ⟨.number 2, ⟨4, 5, "2"⟩⟩, ⟨0, 5, "1 + 2"⟩⟩
      ⟨.number 3, ⟨8, 9, "3"⟩⟩, ⟨0, 9, "1 + 2 * 3"⟩⟩]

/-- C2's source text. -/
def srcC2 : String := "let be = 10;\nlet be = 10 + be;\nbe"

/-- The token sequence C2's source lexes to. -/
def toksC2 : List Token :=
  [⟨.letBind "be" (some ⟨.number 10, ⟨9, 11, "10"⟩⟩), ⟨0, 12, "let be = 10;"⟩⟩,
   ⟨.letBind "be" (some ⟨.expression .add ⟨.number 10, ⟨22, 24, "10"⟩⟩
      ⟨.identifier "be", ⟨27, 29, "be"⟩⟩, ⟨22, 29, "10 + be"⟩⟩), ⟨13, 30, "let be = 10 + be;"⟩⟩,
   ⟨.identifier "be", ⟨31, 33, "be"⟩⟩]

/-- A lone `-` at end of input. -/
def srcLoneMinus : String := "-"

/-- `- 'x'`: unary minus applied to a string literal. -/
def srcMinusString : String :=
  String.mk ['-', ' ', quoteChar, 'x', quoteChar]

/-- `let ` at end of input: a node is expected and the input ends. -/
def srcLetEof : String := "let "

/-- `let=1;`: after the keyword `let` the current character is `=`, a
non-whitespace character, on which `high_skip_whitespace` loops forever. -/
def srcLetLoop : String := "let=1;"

/-- `1  + 2`, with two spaces before the operator. -/
def srcTwoSpaces : String := "1  + 2"

/-- What `1  + 2` lexes to: the fold's span-start retraction subtracts the
left operand's width plus exactly one, so the span starts at offset 1 (the
first space) instead of 0 (the left operand) and its text drops the `1`. -/
def toksTwoSpaces : List Token :=
  [⟨.expression .add ⟨.number 1, ⟨0, 1, "1"⟩⟩ ⟨.number 2, ⟨5, 6, "2"⟩⟩, ⟨1, 6, "  + 2"⟩⟩]

/-- `1+2`, with no space before the operator. -/
def srcNoSpace : String := "1+2"

/-- `5 {1 + 2}`: a sibling node followed by a block containing a fold. -/
def srcC5 : String := "5 \x7b1 + 2\x7d"

/-- What `5 {1 + 2}` lexes to: a single block whose children are the
sibling `5` (absorbed from before the `\x7b`) and the folded `1 + 2`. -/
def toksC5 : List Token :=
  [⟨.bracketScope
      [⟨.number 5, ⟨0, 1, "5"⟩⟩,
       ⟨.expression .add ⟨.number 1, ⟨3, 4, "1"⟩⟩ ⟨.number 2, ⟨7, 8, "2"⟩⟩, ⟨3, 8, "1 + 2"⟩⟩],
      ⟨2, 9, "\x7b1 + 2\x7d"⟩⟩]

/-- C8's first source text. -/
def srcC8eq : String := "1 == 1"

/-- The token `1 == 1` lexes to. -/
def toksC8eq : List Token :=
  [⟨.comparison .equal ⟨.number 1, ⟨0, 1, "1"⟩⟩ ⟨.number 1, ⟨5, 6, "1"⟩⟩, ⟨0, 6, "1 == 1"⟩⟩]

/-- C8's second source text. -/
def srcC8ne : String := "1 != 1"

/-- The token `1 != 1` lexes to. -/
def toksC8ne : List Token :=
  [⟨.comparison .notEqual ⟨.number 1, ⟨0, 1, "1"⟩⟩ ⟨.number 1, ⟨5, 6, "1"⟩⟩, ⟨0, 6, "1 != 1"⟩⟩]

/-- C9's end-to-end source text, `'a' + 'b'`. -/
def srcConcat : String :=
  String.mk [quoteChar, 'a', quoteChar, ' ', '+', ' ', quoteChar, 'b', quoteChar]

/-- The token `'a' + 'b'` lexes to. -/
def toksConcat : List Token :=
  [⟨.expression .add ⟨.literalString "a", ⟨0, 3, sq "a"⟩⟩
      ⟨.literalString "b", ⟨6, 9, sq "b"⟩⟩, ⟨0, 9, sq "a" ++ " + " ++ sq "b"⟩⟩]

/-- C10's source text: a function declaration whose signature argument is a
number literal, not an identifier. -/
def srcC10 : String := "function f(1) \x7b\x7d"

/-- What C10's source lexes to: the declaration does not fail; it records
one parameter whose name is the empty string. -/
def toksC10 : List Token :=
  [⟨.function "f" [""] ⟨.bracketScope [], ⟨14, 16, "\x7b\x7d"⟩⟩, ⟨0, 16, "function f(1) \x7b\x7d"⟩⟩]

/-- The body of C6's witness function `f`: `let x = 99;`. -/
def c6Body : List Token := [⟨.letBind "x" (some ⟨.number 99, sp0⟩), sp0⟩]

/-- C6's witness environment: `x` bound to 1 and `f` bound to a function
with parameter `a` and body `let x = 99;`. -/
def c6Env : Env := [("x", .num 1), ("f", .function "f" ["a"] c6Body)]

/-- C6's witness call arguments: the literal 2. -/
def c6Args : List Token := [⟨.number 2, sp0⟩]

/-! ### Theorems -/

/-- `HashMap` behaviour of the association-list model: looking up a key
right after inserting it yields the inserted value. -/
theorem envGet_envInsert_self (env : Env) (k : String) (v : StrawberryValue) :
    envGet (envInsert env k v) k = some v := by
  induction env with
  | nil => simp [envInsert, envGet]
  | cons p rest ih =>
      obtain ⟨k', v'⟩ := p
      by_cases h : k' = k
      · simp [envInsert, envGet, h]
      · simp [envInsert, envGet, h, ih]

/-- C1.  Operator folding is strictly left-to-right with no precedence
climbing: `1 + 2 * 3` lexes to a single `Expression(Multiply)` node whose
left child is the already-completed `Expression(Add, 1, 2)` (the most
recently emitted sibling, popped off the stack) and whose right child is
exactly the next parsed node, the literal 3 — not the larger expression
`2 * 3`. -/
theorem C1_fold_left_to_right : runStream 100 srcC1 = .ok toksC1 := by
  simp [srcC1, toksC1, runStream, streamLoop, nextToken, parseOperator, binCase, minusCase,
    parseNumber, parseDecimal, takeNumber, digitsToNat, initState, scanStream,
    LexState.nextCharacter, sliceText, operators, quoteChar, backquoteChar, openBrace,
    closeBrace, finishTok, Token.span, unknownOpMsg]

/-- C2.  End-to-end: `"let be = 10;\nlet be = 10 + be;\nbe"` lexes to two
`let` bindings and an identifier, and evaluating them in any environment
with no binding named `be` (native bindings or not) succeeds with
`Number 20`; the second `let be` overwrites the first binding (the final
environment carries a single `be` entry holding 20). -/
theorem C2_let_rebinding_end_to_end (env : Env) (_h : envGet env "be" = none) :
    runStream 100 srcC2 = .ok toksC2 ∧
    runTokenStream 100 toksC2 env =
      .ok (.num 20, envInsert (envInsert env "be" (.num 10)) "be" (.num 20)) := by
  constructor
  · simp [srcC2, toksC2, runStream, streamLoop, nextToken, parseSymbol, parseOperator, binCase,
      minusCase, parseNumber, parseDecimal, takeNumber, digitsToNat, initState, scanStream,
      LexState.nextCharacter, LexState.peekCharacter, highSkipWhitespace, letValueLoop,
      sliceText, operators, quoteChar, backquoteChar, openBrace, closeBrace, finishTok,
      Token.span, Token.kind, unknownOpMsg, extractArgNames]
  · simp [toksC2, runTokenStream, runLoop, parseToken, visitExpression, visitLet,
      visitIdentifier, evaluateExpression, evaluateNumericExpression, Token.kind,
      envGet_envInsert_self]
    norm_num

/-- C2's witness: the concrete instance at the empty environment. -/
theorem C2_let_rebinding_witness :
    runStream 100 srcC2 = .ok toksC2 ∧
    runTokenStream 100 toksC2 ([] : Env) =
      .ok (.num 20, envInsert (envInsert ([] : Env) "be" (.num 10)) "be" (.num 20)) :=
  C2_let_rebinding_end_to_end [] rfl

/-- C3.  The claim that `run_stream` always terminates normally with a node
sequence or a SyntaxError is contradicted by the code on two inputs, while
its positive examples do hold:
* a lone `-` at end of input PANICS (`parse_operator`'s unary branch calls
  `next_token.unwrap()` on the `Err` produced at end of input) instead of
  returning a SyntaxError;
* on `let=1;` the `high_skip_whitespace` loop never terminates (its body is
  a no-op when the current character `=` is not whitespace), so for every
  fuel the run ends in the divergence marker or fuel exhaustion — never in
  a value or an error — and from fuel 3 on it is precisely the divergence
  marker;
* `- 'x'` (unary minus on a non-number) and `let ` (end of input while a
  node is expected) are indeed surfaced as SyntaxErrors. -/
theorem C3_abnormal_termination :
    runStream 100 srcLoneMinus = .panic ∧
    (runStream 100 srcMinusString).errMsg =
      some "The unary operator can be used only on numbers" ∧
    (runStream 100 srcLetEof).errMsg =
      some "Set a variable name at the \x22let\x22 statement" ∧
    (∀ fuel : Nat, (runStream fuel srcLetLoop).settled = false) ∧
    (∀ fuel : Nat, runStream (fuel + 3) srcLetLoop = .diverge) := by
  refine ⟨?_, ?_, ?_, ?_, ?_⟩
  · simp [srcLoneMinus, runStream, streamLoop, nextToken, parseOperator, binCase, minusCase,
      initState, scanStream, LexState.nextCharacter, operators, quoteChar, backquoteChar,
      openBrace, closeBrace, unknownOpMsg]
  · simp [srcMinusString, runStream, streamLoop, nextToken, parseOperator, binCase, minusCase,
      parseLiteralString, initState, scanStream, LexState.nextCharacter, sliceText, operators,
      quoteChar, backquoteChar, openBrace, closeBrace, finishTok, unknownOpMsg, Token.kind,
      LRes.errMsg]
  · simp [srcLetEof, runStream, streamLoop, nextToken, parseSymbol, highSkipWhitespace,
      initState, scanStream, LexState.nextCharacter, LexState.peekCharacter, sliceText,
      operators, quoteChar, backquoteChar, openBrace, closeBrace, finishTok, Token.kind,
      extractArgNames, LRes.errMsg]
  · intro fuel
    match fuel with
    | 0 => simp [runStream, streamLoop, LRes.settled]
    | 1 => simp [srcLetLoop, runStream, streamLoop, nextToken, initState, scanStream,
        LexState.nextCharacter, operators, quoteChar, backquoteChar, openBrace, closeBrace,
        LRes.settled]
    | 2 => simp [srcLetLoop, runStream, streamLoop, nextToken, parseSymbol, initState,
        scanStream, LexState.nextCharacter, operators, quoteChar, backquoteChar, openBrace,
        closeBrace, LRes.settled]
    | (h + 3) => simp [srcLetLoop, runStream, streamLoop, nextToken, parseSymbol,
        highSkipWhitespace, initState, scanStream, LexState.nextCharacter, operators,
        quoteChar, backquoteChar, openBrace, closeBrace, LRes.settled]
  · intro fuel
    simp [srcLetLoop, runStream, streamLoop, nextToken, parseSymbol, highSkipWhitespace,
      initState, scanStream, LexState.nextCharacter, operators, quoteChar, backquoteChar,
      openBrace, closeBrace]

/-- C4.  The span-exactness invariant fails for binary folds: the fold
retracts the span start by the left operand's width plus exactly one, which
is only correct when exactly one character separates the left operand from
the operator.  With two spaces (`1  + 2`) the folded node's span starts at
offset 1 and its text `"  + 2"` is not the source text consumed for the
node (`"1  + 2"`, starting at the left operand's start 0); with no space
(`1+2`) the `usize` subtraction underflows, a panic. -/
theorem C4_span_not_exact :
    runStream 100 srcTwoSpaces = .ok toksTwoSpaces ∧
    (toksTwoSpaces.map (fun t => t.span.text) ≠ [srcTwoSpaces]) ∧
    runStream 100 srcNoSpace = .panic := by
  refine ⟨?_, by simp [toksTwoSpaces, srcTwoSpaces, Token.span], ?_⟩
  · simp [srcTwoSpaces, toksTwoSpaces, runStream, streamLoop, nextToken, parseOperator,
      binCase, minusCase, parseNumber, parseDecimal, takeNumber, digitsToNat, initState,
      scanStream, LexState.nextCharacter, sliceText, operators, quoteChar, backquoteChar,
      openBrace, closeBrace, finishTok, Token.span, unknownOpMsg]
  · simp [srcNoSpace, runStream, streamLoop, nextToken, parseOperator, binCase, minusCase,
      parseNumber, parseDecimal, takeNumber, digitsToNat, initState, scanStream,
      LexState.nextCharacter, sliceText, operators, quoteChar, backquoteChar, openBrace,
      closeBrace, finishTok, Token.span, unknownOpMsg]

/-- C5.  A block's children are not always exactly the nodes produced
between its braces: `parse_bracket_scope` counts every successful
`next_token` call, but a binary fold inside the block pops one
already-pushed child off the shared stack without the counter noticing, so
closing the block pops one token too many — `5 \x7b1 + 2\x7d` lexes to a
single block that has absorbed the sibling `5` emitted before the `\x7b`,
instead of `[5, Block[1 + 2]]`. -/
theorem C5_block_absorbs_sibling : runStream 100 srcC5 = .ok toksC5 := by
  simp [srcC5, toksC5, runStream, streamLoop, nextToken, parseBracketScope, bracketLoop,
    parseOperator, binCase, minusCase, parseNumber, parseDecimal, takeNumber, digitsToNat,
    initState, scanStream, LexState.nextCharacter, sliceText, operators, quoteChar,
    backquoteChar, openBrace, closeBrace, finishTok, Token.span, unknownOpMsg]

/-- C6.  Calling a user-defined `Function` evaluates its body in a fresh
copy of the environment as it stands after argument evaluation (`env1`),
extended with the parameters bound to the argument values; whatever
environment (`envB`) the body's evaluation produces, the caller gets back
exactly `env1` — no binding created or mutated inside the body is visible
to the caller. -/
theorem C6_call_environment_isolation
    (f : Nat) (env : Env) (name fn : String) (args : List Token) (sp : TokenSpan)
    (params : List String) (body : List Token) (vals : List StrawberryValue)
    (env1 envB : Env) (r : StrawberryValue)
    (hlook : envGet env name = some (.function fn params body))
    (hargs : evalArgs f env args = .ok (vals, env1))
    (hlen : params.length = vals.length)
    (hrun : runTokenStream f body (envInsertAll env1 params vals) = .ok (r, envB)) :
    parseToken (f + 1) env ⟨.call name args, sp⟩ = .ok (r, env1) := by
  simp [parseToken, visitCall, visitIdentifier, Token.kind, Token.span, hlook, hargs,
    hlen, hrun]

/-- C6's witness: in an environment binding `x` to 1 and `f` to a function
with parameter `a` and body `let x = 99;`, the call `f(2)` returns 99 while
the caller's environment still holds `x = 1` (the body's rebindings of `x`
and `a` are invisible). -/
theorem C6_call_environment_isolation_witness :
    parseToken 11 c6Env ⟨.call "f" c6Args, sp0⟩ = .ok (.num 99, c6Env) :=
  C6_call_environment_isolation 10 c6Env "f" "f" c6Args sp0 ["a"] c6Body [.num 2] c6Env
    [("x", .num 99), ("f", .function "f" ["a"] c6Body), ("a", .num 2)] (.num 99)
    (by simp [c6Env, c6Body, envGet])
    (by simp [c6Args, evalArgs, parseToken, visitExpression, Token.kind])
    (by simp)
    (by simp [c6Body, c6Env, runTokenStream, runLoop, parseToken, visitLet, visitExpression,
      Token.kind, envInsertAll, envInsert])

/-- C7.  Dividing `Number` operands by exactly zero fails with the
SemanticError "Division by zero" and produces no value, and any nonzero
divisor yields the `Number` quotient — stated for `evaluate_expression` on
`Number` operands and end-to-end for a `BinaryExpr(Divide)` node through
`parse_token`.  (In this rational model of `f64` the quotient of a nonzero
division is always a finite number; the zero-divisor guard is what rules
out an infinity or NaN from a zero divisor in the Rust code.) -/
theorem C7_division_by_zero :
    (∀ lhs rhs : Rat,
        evaluateExpression .divide (.num lhs) (.num rhs) =
          if rhs = 0 then .err "Division by zero" else .ok (.num (lhs / rhs))) ∧
    (∀ (f : Nat) (env : Env) (lhs rhs : Rat),
        parseToken (f + 4) env
            ⟨.expression .divide ⟨.number lhs, sp0⟩ ⟨.number rhs, sp0⟩, sp0⟩ =
          if rhs = 0 then .err "Division by zero" else .ok (.num (lhs / rhs), env)) := by
  refine ⟨fun lhs rhs => rfl, ?_⟩
  intro f env lhs rhs
  by_cases h : rhs = 0 <;>
    simp [h, parseToken, visitExpression, Token.kind, evaluateExpression,
      evaluateNumericExpression]

/-- C8.  `evaluate_comparison` agrees everywhere with the spec's table
(equality and inequality return a Boolean for Number, String and Boolean
operand pairs; the ordering operators only for Number pairs; every other
combination is a SemanticError), and end-to-end `1 == 1` evaluates to
Boolean true and `1 != 1` to Boolean false. -/
theorem C8_comparison_semantics :
    (∀ (op : ComparisonKind) (l r : StrawberryValue),
        evaluateComparison op l r = specComparisonTable op l r) ∧
    runStream 100 srcC8eq = .ok toksC8eq ∧
    runTokenStream 100 toksC8eq ([] : Env) = .ok (.boolean true, ([] : Env)) ∧
    runStream 100 srcC8ne = .ok toksC8ne ∧
    runTokenStream 100 toksC8ne ([] : Env) = .ok (.boolean false, ([] : Env)) := by
  refine ⟨?_, ?_, ?_, ?_, ?_⟩
  · intro op l r
    cases op <;> cases l <;> cases r <;> rfl
  · simp [srcC8eq, toksC8eq, runStream, streamLoop, nextToken, parseOperator, binCase,
      minusCase, parseNumber, parseDecimal, takeNumber, digitsToNat, initState, scanStream,
      LexState.nextCharacter, sliceText, operators, quoteChar, backquoteChar, openBrace,
      closeBrace, finishTok, Token.span, unknownOpMsg]
  · simp [toksC8eq, runTokenStream, runLoop, parseToken, visitExpression, Token.kind,
      evaluateComparison]
  · simp [srcC8ne, toksC8ne, runStream, streamLoop, nextToken, parseOperator, binCase,
      minusCase, parseNumber, parseDecimal, takeNumber, digitsToNat, initState, scanStream,
      LexState.nextCharacter, sliceText, operators, quoteChar, backquoteChar, openBrace,
      closeBrace, finishTok, Token.span, unknownOpMsg]
  · simp [toksC8ne, runTokenStream, runLoop, parseToken, visitExpression, Token.kind,
      evaluateComparison]

/-- C9.  `BinaryExpr` evaluation needs both operands `Number` or both
`String`: string `+` concatenates (`'a' + 'b'` evaluates to `"ab"`
end-to-end), string `-`, `*`, `/` always fail, and every operand pair that
is neither Number/Number nor String/String (mixed, or any Boolean,
Function, NativeFunction, Block or Empty operand) fails with the
mixed-types SemanticError. -/
theorem C9_binary_expression_typing :
    (∀ a b : String, evaluateExpression .add (.str a) (.str b) = .ok (.str (a ++ b))) ∧
    (∀ a b : String,
        evaluateExpression .subtract (.str a) (.str b) =
          .err "Invalid string operation; only concatenation is supported" ∧
        evaluateExpression .multiply (.str a) (.str b) =
          .err "Invalid string operation; only concatenation is supported" ∧
        evaluateExpression .divide (.str a) (.str b) =
          .err "Invalid string operation; only concatenation is supported") ∧
    (∀ (op : ExpressionKind) (l r : StrawberryValue),
        (l.isNum && r.isNum) = false → (l.isStr && r.isStr) = false →
        evaluateExpression op l r = .err "Cannot evaluate expression with mixed types") ∧
    runStream 100 srcConcat = .ok toksConcat ∧
    runTokenStream 100 toksConcat ([] : Env) = .ok (.str "ab", ([] : Env)) := by
  refine ⟨fun a b => rfl, fun a b => ⟨rfl, rfl, rfl⟩, ?_, ?_, ?_⟩
  · intro op l r h1 h2
    cases l <;> cases r <;>
      simp_all [StrawberryValue.isNum, StrawberryValue.isStr, evaluateExpression]
  · simp [srcConcat, toksConcat, runStream, streamLoop, nextToken, parseOperator, binCase,
      minusCase, parseLiteralString, initState, scanStream, LexState.nextCharacter, sliceText,
      operators, quoteChar, backquoteChar, openBrace, closeBrace, finishTok, Token.span,
      unknownOpMsg, sq, apostr]
    decide
  · simp [toksConcat, runTokenStream, runLoop, parseToken, visitExpression, Token.kind,
      evaluateExpression, evaluateStringExpression]

/-- C10.  A `function` declaration whose call-shaped signature contains a
non-identifier argument (here the number literal 1) lexes without failing:
the resulting `Function` token records the empty string as that position's
parameter name, preserving the parameter count (the extraction maps every
argument to a name, identifiers to their name and anything else to ""). -/
theorem C10_function_decl_empty_param_names :
    runStream 100 srcC10 = .ok toksC10 ∧
    (∀ ts : List Token, (extractArgNames ts).length = ts.length) := by
  constructor
  · simp [srcC10, toksC10, runStream, streamLoop, nextToken, parseSymbol, parseBracketScope,
      bracketLoop, callArgsLoop, highSkipWhitespace, parseNumber, parseDecimal, takeNumber,
      digitsToNat, initState, scanStream, LexState.nextCharacter, LexState.peekCharacter,
      sliceText, operators, quoteChar, backquoteChar, openBrace, closeBrace, finishTok,
      Token.span, Token.kind, unknownOpMsg, extractArgNames, sq, apostr]
  · intro ts
    simp [extractArgNames]

end Strawberry
